import Mathlib

/-!
Verification of the OJS statistics dashboard core against its specification.

The development shallowly embeds the Python sources:
* `src/Upload.py` — CSV schema validation (`validate_csv`);
* `src/pages/Visitor Statistics.py` — percentage-of-total, group-by-sum
  (`geo_overview`);
* `src/pages/Explore Views and Downloads.py` / `src/pages/viewsdownloads.py`
  — top-5 selection (`article_top5_downloads`);
* `src/fetch_crossref.py` / `src/pages/Citation Information.py` — the
  cursor-paginated CrossRef fetch loop (`fetch_all_articles`), item
  normalization (`get_title`, `get_published_year`), the citation-range
  histogram and the CSV/JSON exports.

Machine-level details that do not affect the verified claims (Python float
rounding is idealized over `ℚ`; a raised exception is an `Option.none` /
`Except.error`) are noted at the definition they concern.
-/

/-! ## Schema validation (`src/Upload.py`, `validate_csv`) -/

/-- Embeds `validate_csv(df, column_lists)` from `src/Upload.py`: the header
(`list(df.columns)`) is compared for exact list equality against each
candidate column configuration; the first exact match returns `True`,
otherwise `False`. -/
def validate_csv (actual_columns : List String) (column_lists : List (List String)) : Bool :=
  column_lists.any (fun valid_columns => actual_columns == valid_columns)

/-- The two accepted Articles-report header layouts (English and Dutch),
as listed in `src/Upload.py`. -/
def articles_column_configs : List (List String) :=
  [["ID", "Title", "Total", "Abstract Views", "File Views", "PDF", "HTML", "Other"],
   ["ID", "Titel", "Total", "Samenvatting bekeken", "File Views", "PDF", "HTML", "Overig"]]

/-- The two accepted Geographic-report header layouts (English and Dutch),
as listed in `src/Upload.py`. -/
def geo_column_configs : List (List String) :=
  [["City", "Region", "Country", "Total", "Unique"],
   ["Stad", "Regio", "Land", "Total", "Unique"]]

/-! ## Percentage-of-total (`src/pages/Visitor Statistics.py`, line 74) -/

/-- Python's `round` to an integer: round-half-to-even (banker's rounding),
idealized over `ℚ`. -/
def roundHalfEven (q : ℚ) : ℤ :=
  if q - ⌊q⌋ < 1/2 then ⌊q⌋
  else if 1/2 < q - ⌊q⌋ then ⌊q⌋ + 1
  else if ⌊q⌋ % 2 = 0 then ⌊q⌋ else ⌊q⌋ + 1

/-- Python's `round(x, 2)`: round half to even at the second decimal. -/
def pyRound2 (q : ℚ) : ℚ := (roundHalfEven (q * 100) : ℚ) / 100

/-- Embeds line 74 of `src/pages/Visitor Statistics.py`:
`percentage = round((number/total_unique)*100, 2)`.  The line carries no
guard on `total_unique`; a zero denominator makes Python's division fault
(no percentage value is produced), embedded as `Option.none`. -/
def percentage (part whole : ℚ) : Option ℚ :=
  if whole = 0 then none else some (pyRound2 (part / whole * 100))

/-! ## C1, C2 -/

/-- C1: `validate_csv` accepts a header iff it is element-for-element and
order-for-order equal to some profile in the given set — and the spec's own
scenario headers classify accordingly against the Articles profiles. -/
theorem validate_csv_exact_match :
    (∀ (h : List String) (P : List (List String)),
      validate_csv h P = true ↔ ∃ p ∈ P, h = p)
    ∧ validate_csv ["ID", "Title", "Total", "Abstract Views", "File Views", "PDF", "HTML", "Other"]
        articles_column_configs = true
    ∧ validate_csv ["ID", "Titel", "Total", "Samenvatting bekeken", "File Views", "PDF", "HTML", "Overig"]
        articles_column_configs = true
    ∧ validate_csv ["ID", "Name", "Total"] articles_column_configs = false := by
  refine ⟨fun h P => ?_, by decide, by decide, by decide⟩
  simp [validate_csv, List.any_eq_true, beq_iff_eq]

/-- C2 counterexample: with a whole of 0 the percentage computation does not
return 0 — the unguarded division faults (no value is produced). -/
theorem percentage_zero_whole_not_zero :
    percentage 5 0 ≠ some 0 ∧ percentage 5 0 = none := by
  constructor <;> simp [percentage]

/-- C2 (amended): for a nonzero whole the computation returns
`round(100*part/whole, 2)`; with a whole of 0 it faults (produces no value)
instead of returning 0. -/
theorem percentage_spec (part whole : ℚ) :
    (whole ≠ 0 → percentage part whole = some (pyRound2 (part / whole * 100)))
    ∧ percentage part 0 = none := by
  refine ⟨fun h => ?_, by simp [percentage]⟩
  simp [percentage, h]

/-- Witness for C2's amended theorem at `part = 5`, `whole = 4`. -/
theorem percentage_spec_witness :
    (4 : ℚ) ≠ 0 ∧ percentage 5 4 = some (pyRound2 (5 / 4 * 100)) :=
  ⟨by norm_num, (percentage_spec 5 4).1 (by norm_num)⟩

/-! ## Tabular rows

A parsed report row: an association of column names to scalar cells (pandas
stores a string, a number, or a missing value `NaN`). -/

inductive Cell where
  | null : Cell
  | int : Int → Cell
  | str : String → Cell
deriving DecidableEq, Repr

/-- A row of a `TabularDataset`: column name to cell. -/
abbrev Row := List (String × Cell)

/-- The cell a row holds in a given column (`row[c]`). -/
def rowGet (r : Row) (c : String) : Cell := (r.lookup c).getD Cell.null

/-- Numeric view of a cell; `none` for a missing (`NaN`) or non-numeric cell. -/
def Cell.asInt : Cell → Option Int
  | .int n => some n
  | _ => none

/-! ## The pandas sort used by the pages

`df.sort_values(by=c, ascending=False, na_position='last')` is computed by
`pandas.core.sorting.nargsort`: an ascending argsort of the non-null keys
(numpy's sort, which is the stable insertion sort on the small reports these
pages handle), then — because the requested direction is descending — the
reversal `indexer[::-1]`, and finally the null-keyed rows appended in their
original order. -/

/-- Insert into a `le`-ascending list, before the first element `y` with
`le x y` (the stable insertion of an ascending insertion sort). -/
def insertLE (le : α → α → Bool) (x : α) : List α → List α
  | [] => [x]
  | y :: ys => if le x y then x :: y :: ys else y :: insertLE le x ys

/-- Stable ascending insertion sort. -/
def isortLE (le : α → α → Bool) : List α → List α
  | [] => []
  | x :: xs => insertLE le x (isortLE le xs)

/-- Embeds `sort_values(by=…, ascending=False, na_position='last')` on rows
keyed by `key`: stable ascending sort of the non-null-keyed rows, reversed,
then the null-keyed rows in original order. -/
def sort_values_desc (key : α → Option Int) (l : List α) : List α :=
  ((isortLE (fun a b => decide (a.1 ≤ b.1))
      (l.filterMap (fun a => (key a).map (fun k => (k, a))))).reverse.map Prod.snd)
    ++ l.filter (fun a => (key a).isNone)

/-- Embeds `article_top5_downloads(df, button)` from
`src/pages/Explore Views and Downloads.py` (same code in
`src/pages/viewsdownloads.py`): the local `type` is assigned only for the two
recognized buttons; any other button leaves it unassigned, so the
`df.sort_values(by=type, …)` line raises `UnboundLocalError` — embedded as
`none`. -/
def article_top5_downloads (df : List Row) (button : String) : Option (List Row) :=
  (if button = "File Downloads" then some "PDF"
   else if button = "Abstract views" then some "Abstract Views"
   else none).map
    (fun ty => (sort_values_desc (fun r => (rowGet r ty).asInt) df).take 5)

/-! ## Facts about the insertion sort -/

theorem insertLE_perm (le : α → α → Bool) (x : α) (l : List α) :
    (insertLE le x l).Perm (x :: l) := by
  induction l with
  | nil => simp [insertLE]
  | cons y ys ih =>
    cases h : le x y with
    | true => simp [insertLE, h]
    | false =>
      simp only [insertLE, h, Bool.false_eq_true, if_false]
      exact (ih.cons y).trans (List.Perm.swap x y ys)

theorem isortLE_perm (le : α → α → Bool) (l : List α) :
    (isortLE le l).Perm l := by
  induction l with
  | nil => simp [isortLE]
  | cons x xs ih =>
    exact (insertLE_perm le x (isortLE le xs)).trans (ih.cons x)

theorem insertLE_pairwise (le : α → α → Bool)
    (htrans : ∀ a b c, le a b = true → le b c = true → le a c = true)
    (htot : ∀ a b, le a b = false → le b a = true)
    (x : α) (l : List α) (hl : l.Pairwise (le · · = true)) :
    (insertLE le x l).Pairwise (le · · = true) := by
  induction l with
  | nil => simp [insertLE]
  | cons y ys ih =>
    rcases List.pairwise_cons.mp hl with ⟨hy, hys⟩
    cases h : le x y with
    | true =>
      simp only [insertLE, h, if_true]
      refine List.pairwise_cons.mpr ⟨?_, hl⟩
      intro b hb
      rcases List.mem_cons.mp hb with rfl | hb
      · exact h
      · exact htrans x y b h (hy b hb)
    | false =>
      simp only [insertLE, h, Bool.false_eq_true, if_false]
      refine List.pairwise_cons.mpr ⟨?_, ih hys⟩
      intro b hb
      rcases List.mem_cons.mp ((insertLE_perm le x ys).subset hb) with rfl | hb
      · exact htot _ _ h
      · exact hy b hb

theorem isortLE_pairwise (le : α → α → Bool)
    (htrans : ∀ a b c, le a b = true → le b c = true → le a c = true)
    (htot : ∀ a b, le a b = false → le b a = true)
    (l : List α) : (isortLE le l).Pairwise (le · · = true) := by
  induction l with
  | nil => simp [isortLE]
  | cons x xs ih => exact insertLE_pairwise le htrans htot x _ ih

/-! ## Facts about `sort_values_desc` -/

/-- Descending numeric order with nulls last, on the `key` of the sorted
values: a non-null key never follows a null key, and among non-null keys the
later is at most the earlier. -/
def optKeyDesc (key : α → Option Int) (a b : α) : Prop :=
  match key a, key b with
  | some x, some y => y ≤ x
  | none, some _ => False
  | _, _ => True

theorem optKeyDesc_of_right_none {key : α → Option Int} {a b : α}
    (hb : key b = none) : optKeyDesc key a b := by
  unfold optKeyDesc
  cases hka : key a <;> simp [hka, hb]

theorem mem_keyed {key : α → Option Int} {l : List α} {p : Int × α}
    (hp : p ∈ l.filterMap (fun a => (key a).map (fun k => (k, a)))) :
    key p.2 = some p.1 ∧ p.2 ∈ l := by
  rcases List.mem_filterMap.mp hp with ⟨a, ha, hfa⟩
  cases hk : key a with
  | none => rw [hk] at hfa; simp at hfa
  | some k =>
    rw [hk] at hfa
    simp only [Option.map_some', Option.some.injEq] at hfa
    subst hfa
    exact ⟨hk, ha⟩

theorem sort_values_desc_sorted (key : α → Option Int) (l : List α) :
    (sort_values_desc key l).Pairwise (optKeyDesc key) := by
  unfold sort_values_desc
  rw [List.pairwise_append]
  refine ⟨?_, ?_, ?_⟩
  · rw [List.pairwise_map, List.pairwise_reverse]
    have hs := isortLE_pairwise (α := Int × α) (fun a b => decide (a.1 ≤ b.1))
      (fun a b c hab hbc => by
        simp only [decide_eq_true_eq] at *
        exact le_trans hab hbc)
      (fun a b hab => by
        simp only [decide_eq_false_iff_not, decide_eq_true_eq] at *
        exact le_of_not_le hab)
      (l.filterMap (fun a => (key a).map (fun k => (k, a))))
    refine hs.imp_of_mem ?_
    intro p q hp hq hpq
    have hmp := mem_keyed ((isortLE_perm _ _).subset hp)
    have hmq := mem_keyed ((isortLE_perm _ _).subset hq)
    simp only [decide_eq_true_eq] at hpq
    unfold optKeyDesc
    rw [hmq.1, hmp.1]
    exact hpq
  · refine List.pairwise_of_forall_mem_list ?_
    intro a ha b hb
    have hbn : key b = none := by
      have := (List.mem_filter.mp hb).2
      simpa [Option.isNone_iff_eq_none] using this
    exact optKeyDesc_of_right_none hbn
  · intro a ha b hb
    have hbn : key b = none := by
      have := (List.mem_filter.mp hb).2
      simpa [Option.isNone_iff_eq_none] using this
    exact optKeyDesc_of_right_none hbn

theorem sort_values_desc_length (key : α → Option Int) (l : List α) :
    (sort_values_desc key l).length = l.length := by
  unfold sort_values_desc
  rw [List.length_append, List.length_map, List.length_reverse,
    (isortLE_perm _ _).length_eq]
  induction l with
  | nil => simp
  | cons a l ih =>
    cases hk : key a with
    | none => simp [List.filterMap_cons, List.filter_cons, hk, ← ih]; omega
    | some k => simp [List.filterMap_cons, List.filter_cons, hk, ← ih]; omega

theorem keyed_map_snd {key : α → Option Int} {l : List α}
    (h : ∀ a ∈ l, (key a).isSome) :
    (l.filterMap (fun a => (key a).map (fun k => (k, a)))).map Prod.snd = l := by
  induction l with
  | nil => simp
  | cons a l ih =>
    cases hk : key a with
    | none => exact absurd (h a (List.mem_cons_self a l)) (by simp [hk])
    | some k =>
      simp only [List.filterMap_cons, hk, Option.map_some', List.map_cons]
      rw [ih (fun b hb => h b (List.mem_cons_of_mem a hb))]

theorem sort_values_desc_perm_of_isSome (key : α → Option Int) (l : List α)
    (h : ∀ a ∈ l, (key a).isSome) :
    (sort_values_desc key l).Perm l := by
  unfold sort_values_desc
  have hnul : l.filter (fun a => (key a).isNone) = [] := by
    rw [List.filter_eq_nil_iff]
    intro a ha
    have hs := h a ha
    cases hk : key a with
    | none => rw [hk] at hs; simp at hs
    | some k => simp [hk]
  rw [hnul, List.append_nil]
  have hperm : (isortLE (fun a b => decide (a.1 ≤ b.1))
      (l.filterMap (fun a => (key a).map (fun k => (k, a))))).reverse.Perm
      (l.filterMap (fun a => (key a).map (fun k => (k, a)))) :=
    (List.reverse_perm _).trans (isortLE_perm _ _)
  have := hperm.map Prod.snd
  rwa [keyed_map_snd h] at this

/-! ## C3, C10 -/

/-- C3 counterexample: two rows with equal sort keys (`PDF = 10`) come back
in reversed input order — pandas' descending sort reverses a stably
ascending-sorted order — so equal-key rows do not keep their original
relative order. -/
theorem article_top5_not_stable :
    article_top5_downloads
        [[("ID", Cell.int 0), ("PDF", Cell.int 10)],
         [("ID", Cell.int 1), ("PDF", Cell.int 10)]] "File Downloads"
      = some [[("ID", Cell.int 1), ("PDF", Cell.int 10)],
              [("ID", Cell.int 0), ("PDF", Cell.int 10)]]
    ∧ ([[("ID", Cell.int 1), ("PDF", Cell.int 10)],
        [("ID", Cell.int 0), ("PDF", Cell.int 10)]] : List Row)
      ≠ [[("ID", Cell.int 0), ("PDF", Cell.int 10)],
         [("ID", Cell.int 1), ("PDF", Cell.int 10)]] := by
  constructor <;> decide

/-- C3 (amended): for each recognized metric the selector returns exactly
`min 5 (number of rows)` rows, sorted by the metric column in descending
numeric order with null sort keys placed last; equal-key rows are however
not kept in original order (the counterexample shows them reversed). -/
theorem article_top5_sorted_min5 (df : List Row) :
    (∃ out, article_top5_downloads df "File Downloads" = some out
      ∧ out.length = min 5 df.length
      ∧ out.Pairwise (optKeyDesc (fun r => (rowGet r "PDF").asInt)))
    ∧ (∃ out, article_top5_downloads df "Abstract views" = some out
      ∧ out.length = min 5 df.length
      ∧ out.Pairwise (optKeyDesc (fun r => (rowGet r "Abstract Views").asInt))) := by
  constructor
  · refine ⟨(sort_values_desc (fun r => (rowGet r "PDF").asInt) df).take 5,
      by simp [article_top5_downloads], ?_, ?_⟩
    · rw [List.length_take, sort_values_desc_length]
    · exact List.Pairwise.sublist (List.take_sublist 5 _) (sort_values_desc_sorted _ _)
  · refine ⟨(sort_values_desc (fun r => (rowGet r "Abstract Views").asInt) df).take 5,
      by simp [article_top5_downloads], ?_, ?_⟩
    · rw [List.length_take, sort_values_desc_length]
    · exact List.Pairwise.sublist (List.take_sublist 5 _) (sort_values_desc_sorted _ _)

/-- C10: the top-5 selector produces a result exactly for the two recognized
metric strings; any other selector value leaves the sort-column variable
unassigned, so evaluation raises (`UnboundLocalError`) and no result is
returned. -/
theorem article_top5_defined_iff (df : List Row) (button : String) :
    (article_top5_downloads df button).isSome
      = (button == "File Downloads" || button == "Abstract views") := by
  unfold article_top5_downloads
  by_cases h1 : button = "File Downloads"
  · simp [h1]
  · by_cases h2 : button = "Abstract views"
    · simp [h1, h2]
    · simp [h1, h2]

/-! ## Group-by-sum (`geo_overview`, `src/pages/Visitor Statistics.py`) -/

/-- The ascending order in which pandas lists group keys (`groupby` sorts its
keys by value; the Geographic report's keys are country strings). -/
def Cell.keyLE : Cell → Cell → Bool
  | .null, _ => true
  | _, .null => false
  | .int a, .int b => decide (a ≤ b)
  | .int _, .str _ => true
  | .str _, .int _ => false
  | .str a, .str b => decide (a ≤ b)

/-- The group keys of `df.groupby(gc)`: the distinct non-null values of the
group column (pandas' default `dropna=True` drops rows with a null key), in
pandas' ascending key order (default `sort=True`). -/
def groupKeys (df : List Row) (gc : String) : List Cell :=
  isortLE Cell.keyLE
    (((df.map (fun r => rowGet r gc)).filter (fun c => c != Cell.null)).dedup)

/-- Null-as-zero numeric sum of a column over rows (pandas sums with
`skipna`, so a missing value contributes 0). -/
def sumColumn (rows : List Row) (sc : String) : Int :=
  (rows.map (fun r => ((rowGet r sc).asInt).getD 0)).sum

/-- Embeds `result = df.groupby(gc)[sc].sum().reset_index()` from
`geo_overview`: one pair per group key, carrying the group's sum. -/
def groupby_sum (df : List Row) (gc sc : String) : List (Cell × Int) :=
  (groupKeys df gc).map
    (fun k => (k, sumColumn (df.filter (fun r => rowGet r gc == k)) sc))

/-- The `sorted_result` of `geo_overview` in
`src/pages/Visitor Statistics.py`: the grouped sums sorted by descending sum
(`sort_values(by='Unique', ascending=False, na_position='last')`). -/
def geo_overview_sorted (df : List Row) : List (Cell × Int) :=
  sort_values_desc (fun p => some p.2) (groupby_sum df "Country" "Unique")

/-- Embeds `geo_overview(df)`: grouped visitor sums by country, sorted by
descending sum, first 10 (`.head(10)`). -/
def geo_overview (df : List Row) : List (Cell × Int) :=
  (geo_overview_sorted df).take 10

/-! ## C6 -/

/-- C6 counterexample: a row whose group key is null is dropped by
`groupby` (pandas' `dropna=True`), so its key does not appear in the output
at all — the output does not partition this one-row input. -/
theorem geo_overview_sorted_drops_null_key :
    geo_overview_sorted [[("Country", Cell.null), ("Unique", Cell.int 5)]] = []
    ∧ ([[("Country", Cell.null), ("Unique", Cell.int 5)]] : List Row) ≠ [] := by
  constructor <;> decide

/-- C6 (amended): the grouped output of `geo_overview` partitions the rows
with a non-null group key — a cell is an output key iff it is the non-null
`Country` of some input row, each key appears exactly once, each group's sum
is the brute-force null-as-zero sum of `Unique` over the group's rows, and
the output is ordered by descending sum.  Rows with a null `Country` are
dropped. -/
theorem geo_overview_sorted_spec (df : List Row) :
    (∀ k : Cell, k ∈ (geo_overview_sorted df).map Prod.fst
      ↔ (k ≠ Cell.null ∧ ∃ r ∈ df, rowGet r "Country" = k))
    ∧ ((geo_overview_sorted df).map Prod.fst).Nodup
    ∧ (∀ k s, (k, s) ∈ geo_overview_sorted df
      → s = sumColumn (df.filter (fun r => rowGet r "Country" == k)) "Unique")
    ∧ (geo_overview_sorted df).Pairwise (fun a b => b.2 ≤ a.2) := by
  have hperm : (geo_overview_sorted df).Perm (groupby_sum df "Country" "Unique") :=
    sort_values_desc_perm_of_isSome _ _ (fun a _ => rfl)
  have hfst0 : ∀ ks : List Cell,
      (ks.map (fun k =>
        (k, sumColumn (df.filter (fun r => rowGet r "Country" == k)) "Unique"))).map
          Prod.fst = ks := by
    intro ks
    induction ks with
    | nil => rfl
    | cons k ks ih => simp only [List.map_cons, ih]
  have hfst : (groupby_sum df "Country" "Unique").map Prod.fst
      = groupKeys df "Country" := hfst0 (groupKeys df "Country")
  have hkeys : ∀ k : Cell, k ∈ groupKeys df "Country"
      ↔ (k ≠ Cell.null ∧ ∃ r ∈ df, rowGet r "Country" = k) := by
    intro k
    rw [groupKeys, (isortLE_perm _ _).mem_iff, List.mem_dedup, List.mem_filter]
    simp only [List.mem_map, bne_iff_ne, ne_eq]
    tauto
  refine ⟨?_, ?_, ?_, ?_⟩
  · intro k
    rw [(hperm.map Prod.fst).mem_iff, hfst]
    exact hkeys k
  · rw [(hperm.map Prod.fst).nodup_iff, hfst, groupKeys]
    exact ((isortLE_perm _ _).nodup_iff).mpr (List.nodup_dedup _)
  · intro k s hks
    have hmem := hperm.subset hks
    rcases List.mem_map.mp hmem with ⟨k', _, hk'⟩
    cases hk'
    rfl
  · have hsorted := sort_values_desc_sorted (fun p : Cell × Int => some p.2)
      (groupby_sum df "Country" "Unique")
    refine hsorted.imp ?_
    intro a b h
    simpa [optKeyDesc] using h

/-- Witness for C6's amended theorem: on a one-row dataset the single
group's sum is recomputed by the brute-force sum. -/
theorem geo_overview_sorted_spec_witness :
    (Cell.str "NL", (5 : Int))
      ∈ geo_overview_sorted [[("Country", Cell.str "NL"), ("Unique", Cell.int 5)]]
    ∧ (5 : Int)
      = sumColumn ([[("Country", Cell.str "NL"), ("Unique", Cell.int 5)]].filter
          (fun r => rowGet r "Country" == Cell.str "NL")) "Unique" :=
  ⟨by decide,
    (geo_overview_sorted_spec [[("Country", Cell.str "NL"), ("Unique", Cell.int 5)]]).2.2.1
      (Cell.str "NL") 5 (by decide)⟩

/-! ## CrossRef items and their normalization (`src/fetch_crossref.py`,
`src/pages/Citation Information.py`) -/

/-- The JSON shape of a raw item's `title` field: the API may send a list of
strings, a bare string, null, or omit the field. -/
inductive TitleField where
  | list : List String → TitleField
  | str : String → TitleField
  | null : TitleField
  | absent : TitleField
deriving DecidableEq, Repr

/-- One raw item of a CrossRef `works` page, restricted to the fields the
script selects (`DOI,title,is-referenced-by-count,published-print,
published-online`).  `is-referenced-by-count` is CrossRef's non-negative
citation tally, absent when never cited; each date field carries its
`date-parts` lists (`[]` when the field or its `date-parts` is absent,
matching the `.get(…, {}).get("date-parts", [])` chain). -/
structure RawItem where
  doi : Option String
  title : TitleField
  citedBy : Option Nat
  publishedPrintParts : List (List Int)
  publishedOnlineParts : List (List Int)
deriving DecidableEq, Repr

/-- Embeds `get_title(article)`: a non-empty list yields its first element, a
bare string is used as-is, anything else (absent field, null, empty list)
yields the placeholder. -/
def get_title (a : RawItem) : String :=
  match a.title with
  | .list (t :: _) => t
  | .str s => s
  | _ => "No title available"

/-- `if date_parts and date_parts[0]: return date_parts[0][0]` for one date
field. -/
def yearFromParts : List (List Int) → Option Int
  | (y :: _) :: _ => some y
  | _ => none

/-- Embeds `get_published_year(article)`: `published-print` first, then
`published-online`; `none` when neither yields a year. -/
def get_published_year (a : RawItem) : Option Int :=
  match yearFromParts a.publishedPrintParts with
  | some y => some y
  | none => yearFromParts a.publishedOnlineParts

/-- One normalized article record (`processed_article` in the loop body). -/
structure CitationRecord where
  doi : String
  title : String
  citation_count : Nat
  published_year : Option Int
deriving DecidableEq, Repr

/-- Normalization of one raw item: absent DOI defaults to `""`, absent
citation count to 0. -/
def process_article (a : RawItem) : CitationRecord :=
  ⟨a.doi.getD "", get_title a, a.citedBy.getD 0, get_published_year a⟩

/-! ## The paginated fetch loop -/

/-- One page of the works API as the loop sees it: the decoded `items` list
plus the response's `next-cursor` (`none` when the field is absent). -/
structure PageResponse where
  items : List RawItem
  nextCursor : Option String
deriving Repr

/-- Terminal state of the fetch loop: normal exhaustion (`Done`), a caught
network or decoding failure (`Failed`), or — an artifact of driving the loop
with a finite script of responses — the script ran out while the loop still
wanted a page (`Starved`). -/
inductive FetchOutcome where
  | Done : FetchOutcome
  | Failed : FetchOutcome
  | Starved : FetchOutcome
deriving DecidableEq, Repr

/-- What a run of the loop produces: the accumulated records, the terminal
state, the number of API calls made, and the number of 1-second inter-page
sleeps taken. -/
structure FetchResult where
  records : List CitationRecord
  outcome : FetchOutcome
  calls : Nat
  sleeps : Nat
deriving Repr

/-- Python truthiness of the next cursor (`None` and `""` are falsy). -/
def cursorTruthy : Option String → Bool
  | none => false
  | some s => s != ""

/-- The `while has_more` loop of `fetch_all_articles`, driven by a scripted
list of page responses (an `Except.error` response is a request that raises
`RequestException`).  A successful page appends its normalized records to
the accumulator; `has_more = cursor and len(items) > 0` decides whether to
sleep 1 s and fetch again; a raised exception is caught and ends the loop
with the accumulator intact. -/
def fetch_loop :
    List (Except String PageResponse) → List CitationRecord → Nat → Nat → FetchResult
  | [], acc, calls, sleeps => ⟨acc, .Starved, calls, sleeps⟩
  | .error _ :: _, acc, calls, sleeps => ⟨acc, .Failed, calls + 1, sleeps⟩
  | .ok page :: rest, acc, calls, sleeps =>
    let acc2 := acc ++ page.items.map process_article
    if cursorTruthy page.nextCursor && decide (0 < page.items.length) then
      fetch_loop rest acc2 (calls + 1) (sleeps + 1)
    else ⟨acc2, .Done, calls + 1, sleeps⟩

/-- Embeds `fetch_all_articles(issn)` run against a scripted API: empty
accumulator, `page_count = 0`. -/
def fetch_all_articles (api : List (Except String PageResponse)) : FetchResult :=
  fetch_loop api [] 0 0

/-- A concrete raw item used by the mock-API scenarios. -/
def sampleItem : RawItem :=
  ⟨some "10.1/x", .str "T", some 3, [[2020]], []⟩

/-! ## C4, C5, C9 -/

/-- Definitional unfolding of one successful-page step of the loop. -/
theorem fetch_loop_ok_step (items : List RawItem) (cur : Option String)
    (rest : List (Except String PageResponse)) (acc : List CitationRecord)
    (calls sleeps : Nat) :
    fetch_loop (.ok ⟨items, cur⟩ :: rest) acc calls sleeps
      = if cursorTruthy cur && decide (0 < items.length) then
          fetch_loop rest (acc ++ items.map process_article)
            (calls + 1) (sleeps + 1)
        else ⟨acc ++ items.map process_article, .Done, calls + 1, sleeps⟩ := rfl

/-- C4: after a successful page the loop fetches the next page exactly when
the page held at least one item and the response carried a non-empty next
cursor, and otherwise finishes `Done`; on the spec's mock API (1000 items
plus cursor `"abc"`, then 200 items plus an empty cursor) it accumulates
1200 records over exactly 2 calls with one inter-page sleep, ending `Done`. -/
theorem fetch_loop_transition :
    (∀ (page : PageResponse) (rest : List (Except String PageResponse))
        (acc : List CitationRecord) (calls sleeps : Nat),
      fetch_loop (.ok page :: rest) acc calls sleeps
        = if cursorTruthy page.nextCursor = true ∧ page.items ≠ [] then
            fetch_loop rest (acc ++ page.items.map process_article)
              (calls + 1) (sleeps + 1)
          else ⟨acc ++ page.items.map process_article, .Done, calls + 1, sleeps⟩)
    ∧ (fetch_all_articles
        [.ok ⟨List.replicate 1000 sampleItem, some "abc"⟩,
         .ok ⟨List.replicate 200 sampleItem, some ""⟩]).records.length = 1200
    ∧ (fetch_all_articles
        [.ok ⟨List.replicate 1000 sampleItem, some "abc"⟩,
         .ok ⟨List.replicate 200 sampleItem, some ""⟩]).outcome = .Done
    ∧ (fetch_all_articles
        [.ok ⟨List.replicate 1000 sampleItem, some "abc"⟩,
         .ok ⟨List.replicate 200 sampleItem, some ""⟩]).calls = 2
    ∧ (fetch_all_articles
        [.ok ⟨List.replicate 1000 sampleItem, some "abc"⟩,
         .ok ⟨List.replicate 200 sampleItem, some ""⟩]).sleeps = 1 := by
  have h1 : fetch_all_articles
      [.ok ⟨List.replicate 1000 sampleItem, some "abc"⟩,
       .ok ⟨List.replicate 200 sampleItem, some ""⟩]
      = ⟨(List.replicate 1000 sampleItem).map process_article
          ++ (List.replicate 200 sampleItem).map process_article, .Done, 2, 1⟩ := by
    rw [fetch_all_articles, fetch_loop_ok_step,
      if_pos (by rw [List.length_replicate]; decide),
      fetch_loop_ok_step, if_neg (by rw [List.length_replicate]; decide)]
    exact rfl
  refine ⟨?_, ?_, ?_, ?_, ?_⟩
  · intro page rest acc calls sleeps
    simp only [fetch_loop, Bool.and_eq_true, decide_eq_true_eq, List.length_pos]
  · rw [h1]
    simp only [List.length_append, List.length_map, List.length_replicate]
  · rw [h1]
  · rw [h1]
  · rw [h1]

/-- C5: a failing page request ends the loop in `Failed` with the records
accumulated so far returned untouched; on the spec's scenario (1000 items on
page 1, HTTP 500 on page 2) the 1000 page-1 records are returned — not an
empty result. -/
theorem fetch_loop_failure :
    (∀ (e : String) (rest : List (Except String PageResponse))
        (acc : List CitationRecord) (calls sleeps : Nat),
      fetch_loop (.error e :: rest) acc calls sleeps
        = ⟨acc, .Failed, calls + 1, sleeps⟩)
    ∧ (fetch_all_articles
        [.ok ⟨List.replicate 1000 sampleItem, some "abc"⟩,
         .error "HTTP 500"]).records.length = 1000
    ∧ (fetch_all_articles
        [.ok ⟨List.replicate 1000 sampleItem, some "abc"⟩,
         .error "HTTP 500"]).outcome = .Failed
    ∧ (fetch_all_articles
        [.ok ⟨List.replicate 1000 sampleItem, some "abc"⟩,
         .error "HTTP 500"]).records ≠ [] := by
  have h2 : fetch_all_articles
      [.ok ⟨List.replicate 1000 sampleItem, some "abc"⟩, .error "HTTP 500"]
      = ⟨(List.replicate 1000 sampleItem).map process_article, .Failed, 2, 1⟩ := by
    rw [fetch_all_articles, fetch_loop_ok_step,
      if_pos (by rw [List.length_replicate]; decide)]
    exact rfl
  refine ⟨fun e rest acc calls sleeps => rfl, ?_, ?_, ?_⟩
  · rw [h2]
    simp only [List.length_map, List.length_replicate]
  · rw [h2]
  · rw [h2]
    exact List.length_pos.mp
      (by simp only [List.length_map, List.length_replicate]; decide)

/-- C9: title normalization — a non-empty list yields its first element, a
bare string is used as-is, an absent title field yields the fixed
placeholder `"No title available"`. -/
theorem get_title_normalization :
    (∀ (d : Option String) (cb : Option Nat) (pp po : List (List Int))
        (t : String) (ts : List String),
      get_title ⟨d, .list (t :: ts), cb, pp, po⟩ = t)
    ∧ (∀ (d : Option String) (cb : Option Nat) (pp po : List (List Int))
        (s : String),
      get_title ⟨d, .str s, cb, pp, po⟩ = s)
    ∧ (∀ (d : Option String) (cb : Option Nat) (pp po : List (List Int)),
      get_title ⟨d, .absent, cb, pp, po⟩ = "No title available") :=
  ⟨fun _ _ _ _ _ _ => rfl, fun _ _ _ _ _ => rfl, fun _ _ _ _ => rfl⟩

/-! ## Citation distribution histogram (`generate_report` in
`src/fetch_crossref.py`; the same ranges drive
`create_citation_distribution_chart` in `src/pages/Citation Information.py`) -/

/-- The bucket label the `if/elif` chain of `generate_report` assigns to a
citation count. -/
def bucketLabel (count : Nat) : String :=
  if count = 0 then "0 citations"
  else if count ≤ 5 then "1-5 citations"
  else if count ≤ 10 then "6-10 citations"
  else if count ≤ 20 then "11-20 citations"
  else if count ≤ 50 then "21-50 citations"
  else "51+ citations"

/-- The six bucket labels, in the declaration order of `citation_ranges`. -/
def rangeLabels : List String :=
  ["0 citations", "1-5 citations", "6-10 citations", "11-20 citations",
   "21-50 citations", "51+ citations"]

/-- Embeds the `citation_ranges` tally of `generate_report`: per fixed
range, how many articles the `if/elif` chain assigned to it. -/
def citation_ranges (articles : List CitationRecord) : List (String × Nat) :=
  rangeLabels.map
    (fun lb => (lb, articles.countP (fun a => bucketLabel a.citation_count == lb)))

/-- The declared integer range of bucket number `v`:
{0; 1–5; 6–10; 11–20; 21–50; 51+}. -/
def rangePredN (v c : Nat) : Prop :=
  (v = 0 ∧ c = 0)
  ∨ (v = 1 ∧ 1 ≤ c ∧ c ≤ 5)
  ∨ (v = 2 ∧ 6 ≤ c ∧ c ≤ 10)
  ∨ (v = 3 ∧ 11 ≤ c ∧ c ≤ 20)
  ∨ (v = 4 ∧ 21 ≤ c ∧ c ≤ 50)
  ∨ (v = 5 ∧ 51 ≤ c)

/-- Count `c` falls within the declared range of bucket `i`. -/
def rangePred (i : Fin 6) (c : Nat) : Prop := rangePredN i.val c

/-- The label of bucket `i`, in the same indexing as `rangePred`. -/
def rangeLabel (i : Fin 6) : String :=
  match i.val with
  | 0 => "0 citations"
  | 1 => "1-5 citations"
  | 2 => "6-10 citations"
  | 3 => "11-20 citations"
  | 4 => "21-50 citations"
  | _ => "51+ citations"

/-- The bucket index the `if/elif` chain selects. -/
def bucketIdx (c : Nat) : Nat :=
  if c = 0 then 0 else if c ≤ 5 then 1 else if c ≤ 10 then 2
  else if c ≤ 20 then 3 else if c ≤ 50 then 4 else 5

theorem bucketIdx_lt (c : Nat) : bucketIdx c < 6 := by
  unfold bucketIdx
  split_ifs <;> omega

theorem rangePredN_iff (v c : Nat) : rangePredN v c ↔ v = bucketIdx c := by
  unfold rangePredN bucketIdx
  split_ifs <;> omega

theorem rangeLabel_bucketIdx (c : Nat) (h : bucketIdx c < 6) :
    rangeLabel ⟨bucketIdx c, h⟩ = bucketLabel c := by
  unfold bucketLabel
  unfold bucketIdx at h ⊢
  split_ifs <;> rfl

theorem sum_indicator_rangeLabels (c : Nat) :
    (rangeLabels.map
      (fun lb => if bucketLabel c == lb then (1 : Nat) else 0)).sum = 1 := by
  unfold bucketLabel
  split_ifs <;> decide

theorem sum_map_add (L : List β) (g h : β → Nat) :
    (L.map (fun b => g b + h b)).sum = (L.map g).sum + (L.map h).sum := by
  induction L with
  | nil => rfl
  | cons b L ih =>
    simp only [List.map_cons, List.sum_cons, ih]
    omega

theorem sum_countP_eq_length (l : List CitationRecord) :
    (rangeLabels.map
      (fun lb => l.countP (fun a => bucketLabel a.citation_count == lb))).sum
      = l.length := by
  induction l with
  | nil => simp
  | cons a l ih =>
    have hstep : (rangeLabels.map
          (fun lb => (a :: l).countP (fun x => bucketLabel x.citation_count == lb)))
        = rangeLabels.map
            (fun lb => l.countP (fun x => bucketLabel x.citation_count == lb)
              + (if bucketLabel a.citation_count == lb then 1 else 0)) := by
      refine List.map_congr_left ?_
      intro lb _
      rw [List.countP_cons]
    rw [hstep, sum_map_add, ih, sum_indicator_rangeLabels]
    simp

/-! ## C8 -/

/-- C8: every citation count falls within exactly one of the six declared
ranges, the `if/elif` chain assigns it to that range's bucket, and the six
bucket counts sum to the total number of records. -/
theorem citation_ranges_partition (articles : List CitationRecord) (c : Nat) :
    ((citation_ranges articles).map Prod.snd).sum = articles.length
    ∧ (∃! i : Fin 6, rangePred i c)
    ∧ (∀ i : Fin 6, rangePred i c → bucketLabel c = rangeLabel i) := by
  refine ⟨?_, ?_, ?_⟩
  · exact sum_countP_eq_length articles
  · refine ⟨⟨bucketIdx c, bucketIdx_lt c⟩, ?_, ?_⟩
    · exact (rangePredN_iff _ c).mpr rfl
    · intro j hj
      exact Fin.ext ((rangePredN_iff j.val c).mp hj)
  · intro i hi
    have hv : i = ⟨bucketIdx c, bucketIdx_lt c⟩ :=
      Fin.ext ((rangePredN_iff i.val c).mp hi)
    rw [hv, rangeLabel_bucketIdx]

/-- Witness for C8 at count 3 and the empty record list: count 3 lies in
bucket 1's range, and the chain labels it `"1-5 citations"`. -/
theorem citation_ranges_partition_witness :
    rangePred 1 3 ∧ bucketLabel 3 = rangeLabel 1 :=
  ⟨Or.inr (Or.inl ⟨rfl, by omega, by omega⟩),
    (citation_ranges_partition [] 3).2.2 1 (Or.inr (Or.inl ⟨rfl, by omega, by omega⟩))⟩

/-! ## The exports (`export_to_csv`, `export_to_json` in
`src/fetch_crossref.py`) -/

/-- Decimal digit characters of `n`, most significant first — how Python's
`str` renders a non-negative `int`.  The first argument is structural fuel;
`n + 1` is always enough since `n / 10 < n`. -/
def natDigitsFuel : Nat → Nat → List Char
  | 0, _ => []
  | fuel + 1, n =>
    if n < 10 then [Nat.digitChar n]
    else natDigitsFuel fuel (n / 10) ++ [Nat.digitChar (n % 10)]

/-- Python's `str` on a non-negative `int`. -/
def natStr (n : Nat) : String := String.mk (natDigitsFuel (n + 1) n)

/-- Python's `str` on an `int` (a leading `-` for negative values). -/
def intStr (i : Int) : String :=
  if i < 0 then String.mk ('-' :: natDigitsFuel (i.natAbs + 1) i.natAbs)
  else natStr i.natAbs

/-- The numeric value of a decimal digit character. -/
def digitVal (ch : Char) : Nat := ch.toNat - 48

/-- Is `ch` one of `'0'`–`'9'`? -/
def isDigitChar (ch : Char) : Bool :=
  decide (48 ≤ ch.toNat) && decide (ch.toNat ≤ 57)

/-- Decimal reading of a digit-character list (most significant first). -/
def parseNatList (l : List Char) : Option Nat :=
  if l ≠ [] ∧ l.all isDigitChar then
    some (l.foldl (fun acc ch => acc * 10 + digitVal ch) 0)
  else none

/-- Decimal reading of a string as a non-negative integer. -/
def parseNat (s : String) : Option Nat := parseNatList s.data

/-- Decimal reading of a string as an integer (optional leading `-`). -/
def parseInt (s : String) : Option Int :=
  match s.data with
  | '-' :: rest => (parseNatList rest).map (fun n => -(Int.ofNat n))
  | _ => (parseNat s).map (fun n => Int.ofNat n)

/-- The CSV `Year` field: `article['published_year'] or 'Unknown'` — Python's
`or` falls through to `'Unknown'` when the year is `None` and also when it is
the falsy integer 0. -/
def csv_year_field : Option Int → String
  | none => "Unknown"
  | some y => if y = 0 then "Unknown" else intStr y

/-- Embeds `export_to_csv(articles)`: the `DictWriter` header row, then one
row of the four fields per record.  The embedding keeps each row as its
field list; `csv`'s quoting makes the textual encoding of a field row
lossless, so field level is the faithful granularity. -/
def export_to_csv (articles : List CitationRecord) : List (List String) :=
  ["DOI", "Title", "Citations", "Year"]
    :: articles.map (fun r =>
        [r.doi, r.title, natStr r.citation_count, csv_year_field r.published_year])

/-- The (DOI, title, citation count, year) tuple of each record, in order. -/
def recordTuples (articles : List CitationRecord) :
    List (String × String × Nat × Option Int) :=
  articles.map (fun r => (r.doi, r.title, r.citation_count, r.published_year))

/-- Embeds `export_to_json(articles)`: `json.dump` writes each record's four
typed fields (`null` for an absent year) with no further encoding choices,
and `json.load` recovers exactly those values, so the export is modeled by
its decoded field tuples. -/
def export_to_json (articles : List CitationRecord) :
    List (String × String × Nat × Option Int) :=
  articles.map (fun r => (r.doi, r.title, r.citation_count, r.published_year))

/-- Modelled from the spec: the repository only writes its exports and never
re-reads them, so re-parsing is not in the source; this is the evident
reader for the row layout `export_to_csv` writes — four fields per row,
`Citations` a decimal count, `Year` a decimal year or `"Unknown"` for an
absent one. -/
def parse_csv_rows :
    List (List String) → Option (List (String × String × Nat × Option Int))
  | [] => some []
  | row :: rest =>
    match row with
    | [d, t, c, y] =>
      match parseNat c,
          (if y = "Unknown" then some none else (parseInt y).map some),
          parse_csv_rows rest with
      | some cn, some yn, some tl => some ((d, t, cn, yn) :: tl)
      | _, _, _ => none
    | _ => none

/-- Modelled from the spec: read back a CSV export — a header row followed
by record rows. -/
def parse_csv (rows : List (List String)) :
    Option (List (String × String × Nat × Option Int)) :=
  match rows with
  | [] => none
  | _header :: body => parse_csv_rows body

/-! ## Decimal round-trip facts -/

theorem digitVal_digitChar (d : Nat) (hd : d < 10) :
    digitVal (Nat.digitChar d) = d ∧ isDigitChar (Nat.digitChar d) = true := by
  interval_cases d <;> exact ⟨by decide, by decide⟩

theorem natDigitsFuel_spec :
    ∀ fuel n, n < fuel →
      natDigitsFuel fuel n ≠ []
      ∧ (natDigitsFuel fuel n).all isDigitChar = true
      ∧ ∀ acc : Nat,
          (natDigitsFuel fuel n).foldl (fun acc ch => acc * 10 + digitVal ch) acc
            = acc * 10 ^ (natDigitsFuel fuel n).length + n := by
  intro fuel
  induction fuel with
  | zero => intro n h; omega
  | succ fuel ih =>
    intro n hn
    by_cases h10 : n < 10
    · refine ⟨?_, ?_, ?_⟩
      · simp [natDigitsFuel, h10]
      · simp [natDigitsFuel, h10, (digitVal_digitChar n h10).2]
      · intro acc
        simp [natDigitsFuel, h10, (digitVal_digitChar n h10).1]
    · have hrec : n / 10 < fuel := by omega
      obtain ⟨hne, hall, hfold⟩ := ih (n / 10) hrec
      have hd : n % 10 < 10 := Nat.mod_lt _ (by omega)
      refine ⟨?_, ?_, ?_⟩
      · simp [natDigitsFuel, h10]
      · simp [natDigitsFuel, h10, List.all_append, hall, (digitVal_digitChar _ hd).2]
      · intro acc
        simp only [natDigitsFuel, if_neg h10, List.foldl_append, List.length_append,
          List.length_cons, List.length_nil]
        rw [hfold acc]
        simp only [List.foldl_cons, List.foldl_nil, (digitVal_digitChar _ hd).1]
        rw [pow_succ, Nat.add_mul, Nat.mul_assoc, Nat.add_assoc]
        congr 1
        omega

theorem parseNat_natStr (n : Nat) : parseNat (natStr n) = some n := by
  obtain ⟨hne, hall, hfold⟩ := natDigitsFuel_spec (n + 1) n (by omega)
  unfold parseNat natStr parseNatList
  rw [if_pos ⟨hne, hall⟩, hfold 0]
  simp

theorem parseInt_intStr (i : Int) : parseInt (intStr i) = some i := by
  by_cases hneg : i < 0
  · obtain ⟨hne, hall, hfold⟩ := natDigitsFuel_spec (i.natAbs + 1) i.natAbs (by omega)
    unfold intStr
    rw [if_pos hneg]
    show (parseNatList (natDigitsFuel (i.natAbs + 1) i.natAbs)).map
        (fun n => -(Int.ofNat n)) = some i
    unfold parseNatList
    rw [if_pos ⟨hne, hall⟩, hfold 0, Nat.zero_mul, Nat.zero_add]
    simp only [Option.map_some', Option.some.injEq]
    show -((i.natAbs : Int)) = i
    omega
  · obtain ⟨hne, hall, hfold⟩ := natDigitsFuel_spec (i.natAbs + 1) i.natAbs (by omega)
    unfold intStr
    rw [if_neg hneg]
    unfold parseInt
    split
    · rename_i rest hdata
      exfalso
      cases hdig : natDigitsFuel (i.natAbs + 1) i.natAbs with
      | nil => exact hne hdig
      | cons c cs =>
        have hcd : isDigitChar c = true := by
          have h2 := hall
          rw [hdig] at h2
          simp only [List.all_cons, Bool.and_eq_true] at h2
          exact h2.1
        have hc : c = '-' := by
          have h3 : (natStr i.natAbs).data = natDigitsFuel (i.natAbs + 1) i.natAbs := rfl
          rw [h3, hdig] at hdata
          exact ((List.cons.injEq _ _ _ _).mp hdata).1
        rw [hc] at hcd
        exact absurd hcd (by decide)
    · rw [parseNat_natStr]
      simp only [Option.map_some', Option.some.injEq]
      show ((i.natAbs : Int)) = i
      omega

/-! ## C7 -/

theorem parse_csv_rows_cons (d t c y : String) (rest : List (List String)) :
    parse_csv_rows ([d, t, c, y] :: rest)
      = match parseNat c,
            (if y = "Unknown" then some none else (parseInt y).map some),
            parse_csv_rows rest with
        | some cn, some yn, some tl => some ((d, t, cn, yn) :: tl)
        | _, _, _ => none := rfl

theorem parseInt_unknown_none : parseInt "Unknown" = none := by decide

theorem intStr_ne_unknown (y : Int) : intStr y ≠ "Unknown" := by
  intro he
  have hp := parseInt_intStr y
  rw [he, parseInt_unknown_none] at hp
  exact Option.noConfusion hp

theorem parse_csv_rows_export (articles : List CitationRecord)
    (h : ∀ r ∈ articles, r.published_year ≠ some 0) :
    parse_csv_rows (articles.map (fun r =>
        [r.doi, r.title, natStr r.citation_count, csv_year_field r.published_year]))
      = some (recordTuples articles) := by
  induction articles with
  | nil => rfl
  | cons r rs ih =>
    have hr := h r (List.mem_cons_self r rs)
    have hrs : ∀ x ∈ rs, x.published_year ≠ some 0 :=
      fun x hx => h x (List.mem_cons_of_mem r hx)
    rw [List.map_cons, parse_csv_rows_cons, parseNat_natStr, ih hrs]
    cases hy : r.published_year with
    | none =>
      show (match (some r.citation_count : Option Nat),
          (if ("Unknown" : String) = "Unknown" then some none
            else (parseInt "Unknown").map some),
          (some (recordTuples rs)) with
        | some cn, some yn, some tl =>
            some ((r.doi, r.title, cn, yn) :: tl)
        | _, _, _ => none) = some (recordTuples (r :: rs))
      rw [if_pos rfl]
      show some ((r.doi, r.title, r.citation_count, none) :: recordTuples rs)
        = some (recordTuples (r :: rs))
      simp [recordTuples, hy]
    | some yv =>
      have hy0 : yv ≠ 0 := by
        intro h0
        rw [hy, h0] at hr
        exact hr rfl
      show (match (some r.citation_count : Option Nat),
          (if csv_year_field (some yv) = "Unknown" then some none
            else (parseInt (csv_year_field (some yv))).map some),
          (some (recordTuples rs)) with
        | some cn, some yn, some tl =>
            some ((r.doi, r.title, cn, yn) :: tl)
        | _, _, _ => none) = some (recordTuples (r :: rs))
      have hcy : csv_year_field (some yv) = intStr yv := by
        show (if yv = 0 then "Unknown" else intStr yv) = intStr yv
        rw [if_neg hy0]
      rw [hcy, if_neg (intStr_ne_unknown yv), parseInt_intStr]
      show some ((r.doi, r.title, r.citation_count, some yv) :: recordTuples rs)
        = some (recordTuples (r :: rs))
      simp [recordTuples, hy]

/-- C7 counterexample: a record with publication year 0 writes its CSV
`Year` field as `"Unknown"` (Python `0 or 'Unknown'` is `'Unknown'`), so
re-parsing the CSV export yields a tuple with an absent year where the
original record carries year 0 — the tuple sets differ. -/
theorem export_csv_year_zero_lost :
    parse_csv (export_to_csv [⟨"10.1/x", "T", 2, some 0⟩])
      = some [("10.1/x", "T", 2, (none : Option Int))]
    ∧ recordTuples [⟨"10.1/x", "T", 2, some 0⟩] = [("10.1/x", "T", 2, some 0)]
    ∧ (none : Option Int) ≠ some 0 :=
  ⟨by decide, rfl, by decide⟩

/-- C7 (amended): for records none of whose publication years is the falsy
integer 0, re-parsing the CSV export recovers exactly the original
(DOI, title, citation count, year) tuples, and the JSON export carries
exactly those tuples — so either re-parse yields the same tuple set as the
original records.  A year-0 record is the one exception: its CSV `Year`
collapses to `"Unknown"`. -/
theorem export_roundtrip (articles : List CitationRecord)
    (h : ∀ r ∈ articles, r.published_year ≠ some 0) :
    parse_csv (export_to_csv articles) = some (recordTuples articles)
    ∧ export_to_json articles = recordTuples articles :=
  ⟨parse_csv_rows_export articles h, rfl⟩

/-- Witness for C7's amended theorem on a one-record list with year 2020. -/
theorem export_roundtrip_witness :
    (∀ r ∈ [(⟨"10.1/x", "T", 2, some 2020⟩ : CitationRecord)],
      r.published_year ≠ some 0)
    ∧ parse_csv (export_to_csv [(⟨"10.1/x", "T", 2, some 2020⟩ : CitationRecord)])
        = some (recordTuples [(⟨"10.1/x", "T", 2, some 2020⟩ : CitationRecord)]) :=
  ⟨by decide, (export_roundtrip _ (by decide)).1⟩
